import Mathlib

/-!
Verification of the orchestration core of the AIFinanceAssistant repository.

Shallow embedding: the Python functions under `src/` are translated into
executable Lean definitions (Python floats become `ℚ`, Python lists become
`List`, Python dicts become association lists or functions, exceptions become
`Except`).  Wall-clock timestamps (`datetime.now()`), random UUIDs and logging
calls are not observable by any claim and are left out of the state; where a
function stores a timestamp the field is omitted with a comment.
-/

namespace AIFinance

/-- Python `s[:n]` character slicing (`str` slices by code points). -/
def pyTake (s : String) (n : Nat) : String := (s.toList.take n).asString

/-- Python `l[-n:]` slicing.  Note the CPython corner case: for `n = 0` the
slice `l[-0:]` is `l[0:]`, i.e. the whole list, not the empty list. -/
def pySliceLast (n : Nat) (l : List α) : List α :=
  if n = 0 then l else l.drop (l.length - n)

/-- Does `pat` match the front of `l`? -/
def leadMatch : List Char → List Char → Bool
  | [], _ => true
  | _ :: _, [] => false
  | p :: ps, c :: cs => p == c && leadMatch ps cs

/-- Does `pat` occur contiguously anywhere in `l`? -/
def subMatch (pat : List Char) : List Char → Bool
  | [] => leadMatch pat []
  | c :: cs => leadMatch pat (c :: cs) || subMatch pat cs

/-- Python `pat in hay` on strings (contiguous substring test). -/
def containsSubstr (hay pat : String) : Bool := subMatch pat.toList hay.toList

/-- Python `s.lower()` (structural version of `String.toLower`, so concrete
instances reduce in the kernel). -/
def pyLower (s : String) : String := (s.toList.map Char.toLower).asString

/-- Python `s.upper()`. -/
def pyUpper (s : String) : String := (s.toList.map Char.toUpper).asString

/-- Python `sep.join(parts)` (structural version of `String.intercalate`). -/
def joinSep (sep : String) : List String → String
  | [] => ""
  | [a] => a
  | a :: b :: rest => a ++ sep ++ joinSep sep (b :: rest)

/-- Insert a string into an ascending list (code-point order, as Python
`sorted` on `str`). -/
def insertStr (a : String) : List String → List String
  | [] => [a]
  | b :: bs => if a < b then a :: b :: bs else b :: insertStr a bs

/-- Ascending sort of strings, the order Python `sorted` produces. -/
def sortStrings (l : List String) : List String := l.foldr insertStr []

/-!
## Conversation manager (`src/core/conversation_manager.py`)
-/

/-- A conversation message dict with `role` and `content` keys
(`timestamp` and other keys are never read by the manager). -/
structure PyMessage where
  role : String
  content : String
deriving DecidableEq, Repr

/-- Model of the `ConversationSummary` dataclass.  The `timestamp` field
(`datetime.now().isoformat()`) is wall-clock and is omitted. -/
structure ConversationSummary where
  summary_text : String
  messages_included : Nat
  key_topics : List String
  key_decisions : List String
deriving DecidableEq, Repr

/-- The `financial_keywords` dict of `create_summary`, in source order. -/
def financial_keywords : List (String × String) := [
  ("portfolio", "Portfolio Analysis"),
  ("stock", "Stock Market"),
  ("bond", "Bonds"),
  ("etf", "ETFs"),
  ("diversification", "Diversification"),
  ("rebalance", "Rebalancing"),
  ("goal", "Financial Goals"),
  ("retirement", "Retirement Planning"),
  ("tax", "Tax Planning"),
  ("risk", "Risk Management"),
  ("allocation", "Asset Allocation"),
  ("dividend", "Dividends"),
  ("yield", "Yield Analysis"),
  ("market", "Market Analysis")]

/-- The `topics` set built by `create_summary`: every topic label whose
keyword occurs in some message's lowercased content.  CPython iterates a
`set` in unspecified hash order; we keep first-insertion order here (no
claim depends on the order of the set). -/
def summaryTopics (messages : List PyMessage) : List String :=
  messages.foldl (fun acc msg =>
    financial_keywords.foldl (fun acc2 kw =>
      if containsSubstr (pyLower msg.content) kw.1 && !(acc2.contains kw.2)
      then acc2 ++ [kw.2] else acc2) acc) []

/-- The `decisions` list of `create_summary`: first 100 chars of every user
message longer than 20 chars. -/
def summaryDecisions (messages : List PyMessage) : List String :=
  (messages.filter (fun m => m.role == "user" && 20 < m.content.length)).map
    (fun m => pyTake m.content 100)

/-- The `recent_user_msg` scan of `create_summary`: first 150 chars of the
most recent user message, if any. -/
def lastUserMessage (messages : List PyMessage) : Option String :=
  (messages.reverse.find? (fun m => m.role == "user")).map
    (fun m => pyTake m.content 150)

/-- The narrative assembled by `create_summary` before truncation. -/
def summaryNarrative (messages : List PyMessage) : String :=
  let topics := summaryTopics messages
  let parts := ["Conversation with " ++ toString messages.length ++ " messages."]
  let parts := if topics.isEmpty then parts
    else parts ++
      ["Main topics: " ++ joinSep ", " ((sortStrings topics).take 5) ++ "."]
  let parts := match lastUserMessage messages with
    | some m => parts ++ ["Last question: " ++ m]
    | none => parts
  joinSep " " parts

/-- Model of `ConversationManager.create_summary`, parameterized by the manager's
`summary_length`. -/
def create_summary (summary_length : Nat) (messages : List PyMessage) :
    ConversationSummary :=
  if messages.isEmpty then
    { summary_text := "No conversation history"
      messages_included := 0
      key_topics := []
      key_decisions := [] }
  else
    let topics := summaryTopics messages
    let narrative := summaryNarrative messages
    let summary_text :=
      if summary_length < narrative.length then pyTake narrative summary_length ++ "..."
      else narrative
    { summary_text := summary_text
      messages_included := messages.length
      key_topics := (sortStrings topics).take 5
      key_decisions := (summaryDecisions messages).take 3 }

/-- Model of `ConversationManager.trim_history`, parameterized by the manager's
`max_history` and `summary_length`. -/
def trim_history (max_history summary_length : Nat) (messages : List PyMessage) :
    List PyMessage × Option ConversationSummary :=
  if messages.length ≤ max_history then (messages, none)
  else
    (pySliceLast max_history messages,
     some (create_summary summary_length (messages.take (messages.length - max_history))))

/-- Constructor model: `ConversationManager.__init__` coerces a falsy `max_history` argument
(`None` or `0`) to the config default via Python `or`; the default is
`CONVERSATION_MAX_HISTORY = 20`.  A constructed manager therefore always has
a positive `max_history` unless the environment overrides the default. -/
def managerMaxHistory (arg : Option Nat) : Nat :=
  match arg with
  | none => 20
  | some 0 => 20
  | some n => n

theorem managerMaxHistory_pos (arg : Option Nat) : 0 < managerMaxHistory arg := by
  match arg with
  | none => simp [managerMaxHistory]
  | some 0 => simp [managerMaxHistory]
  | some (n + 1) => simp [managerMaxHistory]

lemma length_pyTake (s : String) (n : Nat) : (pyTake s n).length = min n s.length := by
  show (s.toList.take n).length = min n s.length
  rw [List.length_take]
  rfl

lemma create_summary_messages_included (L : Nat) (msgs : List PyMessage) :
    (create_summary L msgs).messages_included = msgs.length := by
  by_cases h : msgs.isEmpty
  · have : msgs = [] := List.isEmpty_iff.mp h
    subst this
    simp [create_summary]
  · simp [create_summary, h]

/-- Example conversation histories used to instantiate theorems. -/
def exMsgs3 : List PyMessage :=
  [⟨"user", "hello"⟩, ⟨"assistant", "hi"⟩, ⟨"user", "thanks"⟩]

/-- C6: when `trim_history` trims (input longer than `max_history`, which is
positive for every constructed manager), the kept list is exactly the last
`max_history` messages, the summary is built from exactly the evicted prefix,
and its `messages_included` equals `len - max_history`; prefix and kept tail
partition the input. -/
theorem trim_history_partitions (mh L : Nat) (msgs : List PyMessage)
    (hpos : 0 < mh) (h : mh < msgs.length) :
    (trim_history mh L msgs).1 = msgs.drop (msgs.length - mh) ∧
    (trim_history mh L msgs).1.length = mh ∧
    (trim_history mh L msgs).2 =
      some (create_summary L (msgs.take (msgs.length - mh))) ∧
    (∀ s, (trim_history mh L msgs).2 = some s →
      s.messages_included = msgs.length - mh) ∧
    msgs.take (msgs.length - mh) ++ msgs.drop (msgs.length - mh) = msgs := by
  have hnot : ¬ msgs.length ≤ mh := by omega
  have hmh : mh ≠ 0 := by omega
  have e1 : trim_history mh L msgs =
      (pySliceLast mh msgs,
       some (create_summary L (msgs.take (msgs.length - mh)))) := by
    rw [trim_history, if_neg hnot]
  have e2 : pySliceLast mh msgs = msgs.drop (msgs.length - mh) := by
    rw [pySliceLast, if_neg hmh]
  refine ⟨?_, ?_, ?_, ?_, ?_⟩
  · rw [e1, e2]
  · rw [e1, e2]
    rw [List.length_drop]
    omega
  · rw [e1]
  · intro s hs
    rw [e1] at hs
    have hs2 : create_summary L (msgs.take (msgs.length - mh)) = s :=
      Option.some.inj hs
    rw [← hs2, create_summary_messages_included, List.length_take]
    omega
  · exact List.take_append_drop _ _

theorem trim_history_partitions_witness :
    0 < 2 ∧ 2 < exMsgs3.length ∧
    ((trim_history 2 500 exMsgs3).1 = exMsgs3.drop (exMsgs3.length - 2) ∧
     (trim_history 2 500 exMsgs3).1.length = 2 ∧
     (trim_history 2 500 exMsgs3).2 =
       some (create_summary 500 (exMsgs3.take (exMsgs3.length - 2))) ∧
     (∀ s, (trim_history 2 500 exMsgs3).2 = some s →
       s.messages_included = exMsgs3.length - 2) ∧
     exMsgs3.take (exMsgs3.length - 2) ++ exMsgs3.drop (exMsgs3.length - 2) = exMsgs3) :=
  ⟨by decide, by decide,
   trim_history_partitions 2 500 exMsgs3 (by decide) (by decide)⟩

/-- C7 counterexample: the claim says `summary_text` always has length at most
`summary_length`, but with `summary_length = 10` and one long user message the
code truncates the narrative to 10 chars and then appends `"..."`, producing
13 characters. -/
theorem create_summary_length_counterexample :
    (create_summary 10 [⟨"user", "Tell me about my portfolio please"⟩]).summary_text.length
      = 13 ∧
    ¬ ((create_summary 10
        [⟨"user", "Tell me about my portfolio please"⟩]).summary_text.length ≤ 10) := by
  constructor
  · decide
  · decide

/-- C7 amended: for a nonempty message list, `summary_text` has length at most
`summary_length + 3` — the code hard-truncates the narrative to
`summary_length` characters and then appends the 3-character ellipsis marker
whenever the narrative exceeds `summary_length`. -/
theorem create_summary_length_bound (L : Nat) (msgs : List PyMessage)
    (h : msgs ≠ []) :
    (create_summary L msgs).summary_text.length ≤ L + 3 ∧
    (L < (summaryNarrative msgs).length →
      (create_summary L msgs).summary_text = pyTake (summaryNarrative msgs) L ++ "...") := by
  have hne : msgs.isEmpty = false := by
    cases msgs with
    | nil => exact absurd rfl h
    | cons a as => rfl
  constructor
  · simp only [create_summary, hne, Bool.false_eq_true, if_false]
    by_cases hlen : L < (summaryNarrative msgs).length
    · simp only [hlen, if_true]
      rw [String.length_append, length_pyTake]
      have h3 : ("..." : String).length = 3 := by decide
      omega
    · simp only [hlen, if_false]
      omega
  · intro hlen
    simp [create_summary, hne, hlen]

theorem create_summary_length_bound_witness :
    ([⟨"user", "Tell me about my portfolio please"⟩] : List PyMessage) ≠ [] ∧
    ((create_summary 10 [⟨"user", "Tell me about my portfolio please"⟩]).summary_text.length
        ≤ 10 + 3 ∧
     (10 < (summaryNarrative [⟨"user", "Tell me about my portfolio please"⟩]).length →
       (create_summary 10 [⟨"user", "Tell me about my portfolio please"⟩]).summary_text
         = pyTake (summaryNarrative [⟨"user", "Tell me about my portfolio please"⟩]) 10
             ++ "...")) :=
  ⟨by decide,
   create_summary_length_bound 10 [⟨"user", "Tell me about my portfolio please"⟩] (by decide)⟩

/-- C8: `trim_history` on a history of length at most `max_history` is the
identity with no summary, so the compactor is idempotent: re-trimming the
kept tail of a previous trim (with the manager's positive `max_history`)
returns it unchanged with no new summary. -/
theorem trim_history_idempotent (mh L : Nat) (msgs : List PyMessage)
    (hpos : 0 < mh) :
    (msgs.length ≤ mh → trim_history mh L msgs = (msgs, none)) ∧
    trim_history mh L (trim_history mh L msgs).1 = ((trim_history mh L msgs).1, none) := by
  constructor
  · intro h
    simp [trim_history, h]
  · by_cases h : msgs.length ≤ mh
    · have e : trim_history mh L msgs = (msgs, none) := by
        rw [trim_history, if_pos h]
      rw [e, trim_history, if_pos h]
    · have hmh : mh ≠ 0 := by omega
      have hkept : (trim_history mh L msgs).1 = msgs.drop (msgs.length - mh) := by
        rw [trim_history, if_neg h, pySliceLast, if_neg hmh]
      rw [hkept]
      have hlen : (msgs.drop (msgs.length - mh)).length ≤ mh := by
        rw [List.length_drop]
        omega
      rw [trim_history, if_pos hlen]

theorem trim_history_idempotent_witness :
    0 < 2 ∧
    ((exMsgs3.length ≤ 2 → trim_history 2 500 exMsgs3 = (exMsgs3, none)) ∧
     trim_history 2 500 (trim_history 2 500 exMsgs3).1
       = ((trim_history 2 500 exMsgs3).1, none)) :=
  ⟨by decide, trim_history_idempotent 2 500 exMsgs3 (by decide)⟩

/-!
## Intent detector (`src/orchestration/intent_detector.py`,
keyword tables from `src/orchestration/state.py`)
-/

/-- The `Intent` enumeration of `state.py`. -/
inductive Intent where
  | education_question
  | tax_question
  | portfolio_analysis
  | market_analysis
  | news_analysis
  | goal_planning
  | investment_plan
  | unknown
deriving DecidableEq, Repr

/-- The `INTENT_KEYWORDS` dict of `state.py`.  The dict has no entry for
`UNKNOWN`; both `detect_intents` and `get_confidence_score` guard lookups
with a membership test, so mapping `unknown` to `[]` is equivalent. -/
def INTENT_KEYWORDS : Intent → List String
  | .education_question =>
      ["what is", "how does", "explain", "define", "understand",
       "tell me about", "describe", "difference between", "concept",
       "meaning of", "why is"]
  | .tax_question =>
      ["tax", "capital gains", "ira", "401k", "roth",
       "deductible", "harvesting", "dividend tax", "tax strategy",
       "tax loss", "tax efficient"]
  | .portfolio_analysis =>
      ["analyze portfolio", "portfolio allocation", "diversification",
       "my holdings", "my portfolio", "concentration", "rebalance", "position",
       "allocation percentage", "analyze", "my stocks", "my shares"]
  | .market_analysis =>
      ["price of", "quote", "stock price", "market data",
       "historical", "trend", "fundamentals", "compare",
       "current price", "trading at", "what is the price",
       "market analysis", "stock analysis", "ticker", "symbol"]
  | .news_analysis =>
      ["news", "sentiment", "headlines", "market condition",
       "what\x27s happening", "latest", "recent", "market movement",
       "events affecting", "market outlook"]
  | .goal_planning =>
      ["goal", "reach", "save", "monthly contribution", "timeline",
       "projection", "when will i", "how much do i need",
       "years to goal", "financial plan", "achieve", "target",
       "path to", "years until"]
  | .investment_plan =>
      ["plan", "strategy", "comprehensive", "full analysis",
       "complete picture", "what should i do", "recommendation",
       "overall strategy", "investment approach"]
  | .unknown => []

/-- The `keyword_matches` accumulation of `get_confidence_score`: for each
detected intent, the number of its keywords occurring in the lowercased
input, summed over the intent list. -/
def keywordMatches (intents : List Intent) (input_lower : String) : Nat :=
  (intents.map (fun i =>
    ((INTENT_KEYWORDS i).filter (fun kw => containsSubstr input_lower kw)).length)).sum

/-- Model of `IntentDetector.get_confidence_score`.  Python floats are modelled as
`ℚ` (the constants are exactly representable decimals and no comparison in
this function is close enough to a rounding boundary to differ).  The three
Booleans stand for the nonemptiness of `extract_tickers`,
`extract_dollar_amounts` and `extract_timeframe` on the same input — those
are independent regex scans whose results the scoring code only tests for
truthiness. -/
def get_confidence_score (intents : List Intent) (user_input : String)
    (hasTickers hasAmounts hasTimeframe : Bool) : ℚ :=
  if Intent.unknown ∈ intents ∧ intents.length = 1 then 0.3
  else
    min 1.0 (max 0.3
      (0.5 + min 0.3 ((keywordMatches intents (pyLower user_input) : ℚ) * 0.1)
        + (if hasTickers then (0.1 : ℚ) else 0)
        + (if hasAmounts then (0.1 : ℚ) else 0)
        + (if hasTimeframe then (0.1 : ℚ) else 0)))

/-- The confidence formula as claim C5 words it (`Modelled from the spec`):
base 0.5 plus 0.1 per keyword match *beyond the first* (contribution capped
at 0.3), plus the extractor bonuses, clamped to `[0.3, 1.0]`. -/
def claimedConfidenceScore (intents : List Intent) (user_input : String)
    (hasTickers hasAmounts hasTimeframe : Bool) : ℚ :=
  if Intent.unknown ∈ intents ∧ intents.length = 1 then 0.3
  else
    min 1.0 (max 0.3
      (0.5 + min 0.3 (((keywordMatches intents (pyLower user_input) - 1 : Nat) : ℚ) * 0.1)
        + (if hasTickers then (0.1 : ℚ) else 0)
        + (if hasAmounts then (0.1 : ℚ) else 0)
        + (if hasTimeframe then (0.1 : ℚ) else 0)))

/-- C5 counterexample: on `"explain bonds"` with detected intent list
`[education_question]` there is exactly one keyword match (`"explain"`), no
tickers, amounts or timeframe.  The code scores `0.5 + min(0.3, 1*0.1) =
0.6`, while the claim (no keyword match beyond the first, so no keyword
bonus) predicts `0.5`. -/
theorem get_confidence_score_counterexample :
    get_confidence_score [Intent.education_question] "explain bonds" false false false
      = 0.6 ∧
    claimedConfidenceScore [Intent.education_question] "explain bonds" false false false
      = 0.5 ∧
    (0.6 : ℚ) ≠ 0.5 := by
  have hm : keywordMatches [Intent.education_question] (pyLower "explain bonds") = 1 := by
    decide
  have hcond : ¬ (Intent.unknown ∈ [Intent.education_question] ∧
      ([Intent.education_question] : List Intent).length = 1) := by
    decide
  refine ⟨?_, ?_, by norm_num⟩
  · rw [get_confidence_score, if_neg hcond]
    simp only [hm]
    norm_num [min_def, max_def]
  · rw [claimedConfidenceScore, if_neg hcond]
    simp only [hm]
    norm_num [min_def, max_def]

/-- C5 amended: `get_confidence_score` returns 0.3 when the only detected
intent is `unknown`; otherwise it returns base 0.5 plus 0.1 per keyword
match **including the first** (contribution capped at 0.3), plus 0.1 each
for extracted tickers, amounts and timeframe, clamped to `[0.3, 1.0]` —
where the lower clamp never binds in the non-unknown branch. -/
theorem get_confidence_score_amended (intents : List Intent) (input : String)
    (hT hA hTf : Bool) :
    (intents = [Intent.unknown] →
      get_confidence_score intents input hT hA hTf = 0.3) ∧
    (¬ (Intent.unknown ∈ intents ∧ intents.length = 1) →
      get_confidence_score intents input hT hA hTf
        = min 1 (0.5 + min 0.3 ((keywordMatches intents (pyLower input) : ℚ) * 0.1)
            + (if hT then (0.1 : ℚ) else 0)
            + (if hA then (0.1 : ℚ) else 0)
            + (if hTf then (0.1 : ℚ) else 0))) ∧
    0.3 ≤ get_confidence_score intents input hT hA hTf ∧
    get_confidence_score intents input hT hA hTf ≤ 1 := by
  have habsorb : ∀ k : Nat, ∀ bT bA bTf : Bool,
      max 0.3 (0.5 + min 0.3 ((k : ℚ) * 0.1)
        + (if bT then (0.1 : ℚ) else 0)
        + (if bA then (0.1 : ℚ) else 0)
        + (if bTf then (0.1 : ℚ) else 0))
      = 0.5 + min 0.3 ((k : ℚ) * 0.1)
        + (if bT then (0.1 : ℚ) else 0)
        + (if bA then (0.1 : ℚ) else 0)
        + (if bTf then (0.1 : ℚ) else 0) := by
    intro k bT bA bTf
    have h1 : (0 : ℚ) ≤ min 0.3 ((k : ℚ) * 0.1) := by
      refine le_min (by norm_num) ?_
      positivity
    have h2 : (0 : ℚ) ≤ (if bT then (0.1 : ℚ) else 0) := by
      cases bT <;> norm_num
    have h3 : (0 : ℚ) ≤ (if bA then (0.1 : ℚ) else 0) := by
      cases bA <;> norm_num
    have h4 : (0 : ℚ) ≤ (if bTf then (0.1 : ℚ) else 0) := by
      cases bTf <;> norm_num
    rw [max_eq_right]
    nlinarith
  refine ⟨?_, ?_, ?_, ?_⟩
  · intro h
    subst h
    rw [get_confidence_score, if_pos (by exact ⟨List.mem_singleton_self _, rfl⟩)]
  · intro h
    rw [get_confidence_score, if_neg h]
    simp only [habsorb]
    norm_num
  · by_cases h : Intent.unknown ∈ intents ∧ intents.length = 1
    · rw [get_confidence_score, if_pos h]
    · rw [get_confidence_score, if_neg h]
      refine le_min (by norm_num) (le_max_left _ _)
  · by_cases h : Intent.unknown ∈ intents ∧ intents.length = 1
    · rw [get_confidence_score, if_pos h]
      norm_num
    · rw [get_confidence_score, if_neg h]
      exact le_trans (min_le_left _ _) (by norm_num)

theorem get_confidence_score_amended_witness :
    (([Intent.education_question] : List Intent) = [Intent.unknown] →
      get_confidence_score [Intent.education_question] "explain bonds" false false false
        = 0.3) ∧
    (¬ (Intent.unknown ∈ ([Intent.education_question] : List Intent) ∧
        ([Intent.education_question] : List Intent).length = 1) →
      get_confidence_score [Intent.education_question] "explain bonds" false false false
        = min 1 (0.5 + min 0.3
              ((keywordMatches [Intent.education_question] (pyLower "explain bonds") : ℚ)
                * 0.1)
            + (if false then (0.1 : ℚ) else 0)
            + (if false then (0.1 : ℚ) else 0)
            + (if false then (0.1 : ℚ) else 0))) ∧
    0.3 ≤ get_confidence_score [Intent.education_question] "explain bonds" false false false ∧
    get_confidence_score [Intent.education_question] "explain bonds" false false false ≤ 1 :=
  get_confidence_score_amended [Intent.education_question] "explain bonds" false false false

/-!
## Rate limiter (`src/core/guardrails.py`, class `RateLimiter`)

Timestamps are modelled in seconds as `Int`; the Python code only compares
`datetime` values and subtracts fixed `timedelta`s (1 minute = 60 s,
1 hour = 3600 s, 1 day = 86400 s), so the integer model is faithful for any
time resolution down to whole seconds.  `self.user_requests` is a dict with
a missing user treated as `[]`, modelled as a total function.
-/

def QUERIES_PER_MINUTE : Nat := 10
def QUERIES_PER_HOUR : Nat := 100
def QUERIES_PER_DAY : Nat := 500

/-- Model of `RateLimiter.is_allowed`: prune entries at least one day old, count the
three windows, reject if any window is at its cap (the pruned list is stored
either way), otherwise record `now` and allow. -/
def is_allowed (user_requests : String → List Int) (user_id : String)
    (now : Int) : (Bool × Option String) × (String → List Int) :=
  let requests := (user_requests user_id).filter (fun r => now - 86400 < r)
  let minute_count := (requests.filter (fun r => now - 60 < r)).length
  let hour_count := (requests.filter (fun r => now - 3600 < r)).length
  let day_count := requests.length
  if QUERIES_PER_MINUTE ≤ minute_count then
    ((false, some "Rate limit: max 10 queries/minute"),
     fun v => if v = user_id then requests else user_requests v)
  else if QUERIES_PER_HOUR ≤ hour_count then
    ((false, some "Rate limit: max 100 queries/hour"),
     fun v => if v = user_id then requests else user_requests v)
  else if QUERIES_PER_DAY ≤ day_count then
    ((false, some "Rate limit: max 500 queries/day"),
     fun v => if v = user_id then requests else user_requests v)
  else
    ((true, none),
     fun v => if v = user_id then requests ++ [now] else user_requests v)

/-- A sequence of `is_allowed` calls for one user at the given times,
returning the allowed/rejected flags in order and the final request map. -/
def runRateCalls (m : String → List Int) (u : String) :
    List Int → List Bool × (String → List Int)
  | [] => ([], m)
  | t :: ts =>
    let r := is_allowed m u t
    let rest := runRateCalls r.2 u ts
    (r.1.1 :: rest.1, rest.2)

lemma is_allowed_fresh_step (m : String → List Int) (u : String) (pre : List Int)
    (now : Int) (hm : m u = pre)
    (hwin : ∀ x ∈ pre, now - 60 < x) :
    (pre.length < 10 →
      is_allowed m u now
        = ((true, none), fun v => if v = u then pre ++ [now] else m v)) ∧
    (pre.length = 10 →
      is_allowed m u now
        = ((false, some "Rate limit: max 10 queries/minute"),
           fun v => if v = u then pre else m v)) := by
  have hfil1 : pre.filter (fun r => now - 86400 < r) = pre := by
    rw [List.filter_eq_self]
    intro x hx
    have := hwin x hx
    simp only [decide_eq_true_eq]
    omega
  have hfil2 : pre.filter (fun r => now - 60 < r) = pre := by
    rw [List.filter_eq_self]
    intro x hx
    have := hwin x hx
    simp only [decide_eq_true_eq]
    omega
  have hfil3 : pre.filter (fun r => now - 3600 < r) = pre := by
    rw [List.filter_eq_self]
    intro x hx
    have := hwin x hx
    simp only [decide_eq_true_eq]
    omega
  constructor
  · intro hlt
    rw [is_allowed]
    simp only [hm, hfil1, hfil2, hfil3]
    rw [if_neg (by simp [QUERIES_PER_MINUTE]; omega),
        if_neg (by simp [QUERIES_PER_HOUR]; omega),
        if_neg (by simp [QUERIES_PER_DAY]; omega)]
  · intro heq
    rw [is_allowed]
    simp only [hm, hfil1, hfil2, hfil3]
    rw [if_pos (by simp [QUERIES_PER_MINUTE]; omega)]

lemma runRateCalls_fresh_spec (u : String) :
    ∀ ts pre : List Int, ∀ m : String → List Int,
    m u = pre →
    (∀ x ∈ pre, ∀ y ∈ ts, x ≤ y) →
    ts.Pairwise (· ≤ ·) →
    (∀ x ∈ pre ++ ts, ∀ y ∈ pre ++ ts, y - x < 60) →
    pre.length ≤ 10 →
    (runRateCalls m u ts).1
      = (List.range ts.length).map (fun i => decide (pre.length + i < 10)) ∧
    (runRateCalls m u ts).2 u = pre ++ ts.take (10 - pre.length)
  | [], pre, m, hm, _, _, _, _ => by
    simp [runRateCalls, hm]
  | t :: ts, pre, m, hm, horder, hpair, hspan, hsize => by
    have hwin : ∀ x ∈ pre, t - 60 < x := by
      intro x hx
      have h1 : t - x < 60 :=
        hspan x (List.mem_append_left _ hx) t
          (List.mem_append_right _ (List.mem_cons_self _ _))
      omega
    have hstep := is_allowed_fresh_step m u pre t hm hwin
    have hts_le : ∀ y ∈ ts, t ≤ y := by
      intro y hy
      exact (List.pairwise_cons.mp hpair).1 y hy
    have hpair' : ts.Pairwise (· ≤ ·) := (List.pairwise_cons.mp hpair).2
    by_cases hlt : pre.length < 10
    · have heq := hstep.1 hlt
      have hm' : (fun v => if v = u then pre ++ [t] else m v) u = pre ++ [t] := by
        simp
      have horder' : ∀ x ∈ pre ++ [t], ∀ y ∈ ts, x ≤ y := by
        intro x hx y hy
        rcases List.mem_append.mp hx with h | h
        · exact le_trans (horder x h t (List.mem_cons_self _ _)) (hts_le y hy)
        · rw [List.mem_singleton.mp h]
          exact hts_le y hy
      have hspan' : ∀ x ∈ (pre ++ [t]) ++ ts, ∀ y ∈ (pre ++ [t]) ++ ts, y - x < 60 := by
        intro x hx y hy
        apply hspan
        · rcases List.mem_append.mp hx with h | h
          · rcases List.mem_append.mp h with h2 | h2
            · exact List.mem_append_left _ h2
            · exact List.mem_append_right _
                (by rw [List.mem_singleton.mp h2]; exact List.mem_cons_self _ _)
          · exact List.mem_append_right _ (List.mem_cons_of_mem _ h)
        · rcases List.mem_append.mp hy with h | h
          · rcases List.mem_append.mp h with h2 | h2
            · exact List.mem_append_left _ h2
            · exact List.mem_append_right _
                (by rw [List.mem_singleton.mp h2]; exact List.mem_cons_self _ _)
          · exact List.mem_append_right _ (List.mem_cons_of_mem _ h)
      by_cases hsize' : (pre ++ [t]).length ≤ 10
      · have IH := runRateCalls_fresh_spec u ts (pre ++ [t])
          (fun v => if v = u then pre ++ [t] else m v) hm' horder' hpair'
          hspan' hsize'
        constructor
        · show ((is_allowed m u t).1.1 ::
              (runRateCalls (is_allowed m u t).2 u ts).1) = _
          rw [heq]
          simp only []
          rw [IH.1]
          simp only [List.length_cons, List.range_succ_eq_map, List.map_cons,
            List.map_map]
          rw [List.cons_eq_cons]
          refine ⟨?_, ?_⟩
          · symm
            simp only [decide_eq_true_eq]
            omega
          · apply List.map_congr_left
            intro i _
            simp only [Function.comp_apply, List.length_append, List.length_singleton]
            simp only [decide_eq_decide]
            omega
        · show (runRateCalls (is_allowed m u t).2 u ts).2 u = _
          rw [heq]
          simp only []
          rw [IH.2]
          have h10 : 10 - pre.length = (10 - (pre ++ [t]).length) + 1 := by
            simp only [List.length_append, List.length_singleton]
            omega
          rw [h10, List.take_succ_cons, List.append_assoc]
          rfl
      · exfalso
        simp only [List.length_append, List.length_singleton] at hsize'
        omega
    · have h10 : pre.length = 10 := by omega
      have heq := hstep.2 h10
      have hm' : (fun v => if v = u then pre else m v) u = pre := by
        simp
      have IH := runRateCalls_fresh_spec u ts pre
        (fun v => if v = u then pre else m v) hm'
        (fun x hx y hy => le_trans (horder x hx t (List.mem_cons_self _ _)) (hts_le y hy))
        hpair'
        (by
          intro x hx y hy
          apply hspan
          · rcases List.mem_append.mp hx with h | h
            · exact List.mem_append_left _ h
            · exact List.mem_append_right _ (List.mem_cons_of_mem _ h)
          · rcases List.mem_append.mp hy with h | h
            · exact List.mem_append_left _ h
            · exact List.mem_append_right _ (List.mem_cons_of_mem _ h))
        hsize
      constructor
      · show ((is_allowed m u t).1.1 ::
            (runRateCalls (is_allowed m u t).2 u ts).1) = _
        rw [heq]
        simp only []
        rw [IH.1]
        simp only [List.length_cons, List.range_succ_eq_map, List.map_cons,
          List.map_map]
        rw [List.cons_eq_cons]
        refine ⟨?_, ?_⟩
        · symm
          simp only [decide_eq_false_iff_not]
          omega
        · apply List.map_congr_left
          intro i _
          simp only [Function.comp_apply]
          simp only [decide_eq_decide]
          omega
      · show (runRateCalls (is_allowed m u t).2 u ts).2 u = _
        rw [heq]
        simp only []
        rw [IH.2]
        rw [h10]
        simp

/-- C4: with `QUERIES_PER_MINUTE = 10` and the hour/day caps untouched (a
user with no recorded requests), issuing 11 chronologically ordered calls
all within one minute yields `allowed` on the first 10 — each recording its
timestamp — and `rejected` on the 11th, whose timestamp is not recorded. -/
theorem rate_limiter_minute_cap (u : String) (ts : List Int)
    (hlen : ts.length = 11)
    (hpair : ts.Pairwise (· ≤ ·))
    (hspan : ∀ x ∈ ts, ∀ y ∈ ts, y - x < 60) :
    (runRateCalls (fun _ => []) u ts).1 = List.replicate 10 true ++ [false] ∧
    (runRateCalls (fun _ => []) u ts).2 u = ts.take 10 := by
  have h := runRateCalls_fresh_spec u ts [] (fun _ => []) rfl
    (by intro x hx; exact absurd hx (List.not_mem_nil x))
    hpair (by simpa using hspan) (by simp)
  constructor
  · rw [h.1, hlen]
    decide
  · rw [h.2]
    simp

theorem rate_limiter_minute_cap_witness :
    ([0, 1, 2, 3, 4, 10, 20, 30, 40, 50, 59] : List Int).length = 11 ∧
    ([0, 1, 2, 3, 4, 10, 20, 30, 40, 50, 59] : List Int).Pairwise (· ≤ ·) ∧
    (∀ x ∈ ([0, 1, 2, 3, 4, 10, 20, 30, 40, 50, 59] : List Int),
      ∀ y ∈ ([0, 1, 2, 3, 4, 10, 20, 30, 40, 50, 59] : List Int), y - x < 60) ∧
    ((runRateCalls (fun _ => []) "alice" [0, 1, 2, 3, 4, 10, 20, 30, 40, 50, 59]).1
        = List.replicate 10 true ++ [false] ∧
     (runRateCalls (fun _ => []) "alice" [0, 1, 2, 3, 4, 10, 20, 30, 40, 50, 59]).2 "alice"
        = ([0, 1, 2, 3, 4, 10, 20, 30, 40, 50, 59] : List Int).take 10) :=
  ⟨by decide, by decide, by decide,
   rate_limiter_minute_cap "alice" [0, 1, 2, 3, 4, 10, 20, 30, 40, 50, 59]
     (by decide) (by decide) (by decide)⟩

/-- C9: whenever `is_allowed` rejects, the stored list for the user is just
the day-pruned old list — no new timestamp is recorded, every stored entry
was already present, and other users' lists are untouched. -/
theorem rate_limiter_reject_no_record (m : String → List Int) (u : String)
    (now : Int) (h : ((is_allowed m u now).1).1 = false) :
    (is_allowed m u now).2 u = (m u).filter (fun r => now - 86400 < r) ∧
    (∀ x ∈ (is_allowed m u now).2 u, x ∈ m u) ∧
    (∀ v, v ≠ u → (is_allowed m u now).2 v = m v) := by
  have hmain : (is_allowed m u now).2 u = (m u).filter (fun r => now - 86400 < r) ∧
      (∀ v, v ≠ u → (is_allowed m u now).2 v = m v) := by
    rw [is_allowed]
    by_cases h1 : QUERIES_PER_MINUTE ≤
        (((m u).filter (fun r => now - 86400 < r)).filter (fun r => now - 60 < r)).length
    · rw [if_pos h1]
      exact ⟨by simp, fun v hv => by simp [hv]⟩
    · rw [if_neg h1]
      by_cases h2 : QUERIES_PER_HOUR ≤
          (((m u).filter (fun r => now - 86400 < r)).filter (fun r => now - 3600 < r)).length
      · rw [if_pos h2]
        exact ⟨by simp, fun v hv => by simp [hv]⟩
      · rw [if_neg h2]
        by_cases h3 : QUERIES_PER_DAY ≤ ((m u).filter (fun r => now - 86400 < r)).length
        · rw [if_pos h3]
          exact ⟨by simp, fun v hv => by simp [hv]⟩
        · exfalso
          rw [is_allowed] at h
          rw [if_neg h1, if_neg h2, if_neg h3] at h
          simp at h
  refine ⟨hmain.1, ?_, hmain.2⟩
  intro x hx
  rw [hmain.1] at hx
  exact (List.mem_filter.mp hx).1

theorem rate_limiter_reject_no_record_witness :
    (((is_allowed (fun v => if v = "bob" then [1, 2, 3, 4, 5, 6, 7, 8, 9, 10] else [])
        "bob" 30).1).1 = false) ∧
    ((is_allowed (fun v => if v = "bob" then [1, 2, 3, 4, 5, 6, 7, 8, 9, 10] else [])
        "bob" 30).2 "bob"
      = ([1, 2, 3, 4, 5, 6, 7, 8, 9, 10] : List Int).filter (fun r => 30 - 86400 < r) ∧
     (∀ x ∈ (is_allowed (fun v => if v = "bob" then [1, 2, 3, 4, 5, 6, 7, 8, 9, 10] else [])
        "bob" 30).2 "bob",
       x ∈ (fun v : String => if v = "bob" then ([1, 2, 3, 4, 5, 6, 7, 8, 9, 10] : List Int)
          else []) "bob") ∧
     (∀ v, v ≠ "bob" →
       (is_allowed (fun v => if v = "bob" then [1, 2, 3, 4, 5, 6, 7, 8, 9, 10] else [])
          "bob" 30).2 v
         = (fun w : String => if w = "bob" then ([1, 2, 3, 4, 5, 6, 7, 8, 9, 10] : List Int)
            else []) v)) :=
  ⟨by decide,
   rate_limiter_reject_no_record
     (fun v => if v = "bob" then [1, 2, 3, 4, 5, 6, 7, 8, 9, 10] else [])
     "bob" 30 (by decide)⟩

/-!
## Financial validation (`src/core/guardrails.py`,
classes `InputValidator` / `FinancialValidator`)

Python float amounts are modelled as `ℚ`.  The error/warning message
strings contain `f`-string float formatting; they are abstracted to tagged
values recording which rule fired and for which ticker — the claims only
concern which issues are recorded and the `is_valid` flag.
-/

/-- The `excluded` set of `InputValidator.validate_ticker`. -/
def excludedTickers : List String :=
  ["THE", "AND", "FOR", "WITH", "FROM", "THAT", "THIS", "WHAT",
   "WHEN", "WHERE", "HOW", "WHY", "IS", "IT", "MY", "YOUR",
   "PORTFOLIO", "STOCK", "PRICE", "SHARE", "DIVIDEND"]

/-- Model of `InputValidator.validate_ticker`: regex `^[A-Z]{1,5}$` and not in the
excluded-words set. -/
def validate_ticker (t : String) : Bool :=
  decide (1 ≤ t.length ∧ t.length ≤ 5) && t.toList.all (fun c => c.isUpper)
    && !(excludedTickers.contains t)

def MIN_AMOUNT : ℚ := 1
def MAX_AMOUNT : ℚ := 10000000
def MAX_PORTFOLIO_VALUE : ℚ := 100000000
def MAX_CONCENTRATION_WARNING : ℚ := 50
def MAX_CONCENTRATION_ERROR : ℚ := 95

/-- Model of `InputValidator.validate_amount` (validity flag only; the message and
the non-blocking large-amount log line are not modelled). -/
def validate_amount (amount : ℚ) : Bool :=
  if amount < MIN_AMOUNT then false
  else if MAX_AMOUNT < amount then false
  else true

/-- Tags for the strings appended to `errors` / `warnings` by
`FinancialValidator.validate_portfolio`. -/
inductive PortfolioIssue where
  | emptyPortfolio
  | tooManyHoldings
  | valueExceedsMax
  | invalidTicker (t : String)
  | invalidAmount (t : String)
  | concentrationError (t : String)
  | concentrationWarning (t : String)
deriving DecidableEq, Repr

/-- Model of the `ValidationResult` dataclass. -/
structure ValidationResult where
  is_valid : Bool
  errors : List PortfolioIssue
  warnings : List PortfolioIssue
deriving DecidableEq, Repr

/-- Model of `FinancialValidator.validate_portfolio`.  The Python dict
`portfolio : Dict[str, float]` is modelled as an association list iterated
in insertion order (dict keys are unique; the claims instantiate the model
only with distinct keys). -/
def validate_portfolio (portfolio : List (String × ℚ)) : ValidationResult :=
  if portfolio.isEmpty then
    { is_valid := false, errors := [.emptyPortfolio], warnings := [] }
  else
    let errors0 : List PortfolioIssue :=
      if 100 < portfolio.length then [.tooManyHoldings] else []
    let total_value : ℚ := (portfolio.map Prod.snd).sum
    let errors1 := errors0 ++
      (if MAX_PORTFOLIO_VALUE < total_value then [.valueExceedsMax] else [])
    let folded := portfolio.foldl
      (fun (acc : List PortfolioIssue × List PortfolioIssue) h =>
        let errs := acc.1 ++
          (if validate_ticker h.1 then [] else [.invalidTicker h.1]) ++
          (if validate_amount h.2 then [] else [.invalidAmount h.1])
        if 0 < total_value then
          let percentage := h.2 / total_value * 100
          if MAX_CONCENTRATION_ERROR < percentage then
            (errs ++ [.concentrationError h.1], acc.2)
          else if MAX_CONCENTRATION_WARNING < percentage then
            (errs, acc.2 ++ [.concentrationWarning h.1])
          else (errs, acc.2)
        else (errs, acc.2))
      (errors1, [])
    { is_valid := folded.1.isEmpty, errors := folded.1, warnings := folded.2 }

/-- C10: a portfolio with a single positive holding is always invalid — the
lone position is 100% of total value, above the 95% concentration error
threshold, so a concentration error is recorded no matter whether the
ticker or the amount is individually valid. -/
theorem validate_portfolio_single_holding (t : String) (a : ℚ) (ha : 0 < a) :
    (validate_portfolio [(t, a)]).is_valid = false ∧
    PortfolioIssue.concentrationError t ∈ (validate_portfolio [(t, a)]).errors := by
  have htot : (0 : ℚ) < (([(t, a)] : List (String × ℚ)).map Prod.snd).sum := by
    simpa using ha
  have hpct : a / ((([(t, a)] : List (String × ℚ)).map Prod.snd).sum) * 100 = 100 := by
    simp only [List.map_cons, List.map_nil, List.sum_cons, List.sum_nil, add_zero]
    rw [div_self (ne_of_gt ha)]
    norm_num
  have hgt : MAX_CONCENTRATION_ERROR < (100 : ℚ) := by
    rw [MAX_CONCENTRATION_ERROR]
    norm_num
  constructor
  · rw [validate_portfolio, if_neg (by simp)]
    simp only [List.foldl_cons, List.foldl_nil]
    rw [if_pos htot, hpct, if_pos hgt]
    simp
  · rw [validate_portfolio, if_neg (by simp)]
    simp only [List.foldl_cons, List.foldl_nil]
    rw [if_pos htot, hpct, if_pos hgt]
    exact List.mem_append_right _ (List.mem_singleton_self _)

theorem validate_portfolio_single_holding_witness :
    (0 : ℚ) < 5000 ∧
    ((validate_portfolio [("AAPL", 5000)]).is_valid = false ∧
     PortfolioIssue.concentrationError "AAPL" ∈ (validate_portfolio [("AAPL", 5000)]).errors) :=
  ⟨by norm_num, validate_portfolio_single_holding "AAPL" 5000 (by norm_num)⟩

/-!
## Agent executor (`src/orchestration/agent_executor.py`)

An agent is an opaque asynchronous callable; its behaviour is a parameter
`beh : AgentType → String → AgentContext → Except String String` giving, for
each agent kind, user input and extracted context, either the agent's answer
or the message of the exception it raises.  (`execute_agent` interpolates the
context into the prompt string before the call; since the agent itself is a
parameter, the model passes the context through unmodified.)  Wall-clock
execution times are not modelled.
-/

/-- The `AgentType` enumeration of `state.py`. -/
inductive AgentType where
  | finance_qa
  | portfolio_analysis
  | market_analysis
  | goal_planning
  | tax_education
  | news_synthesizer
deriving DecidableEq, Repr

/-- The `.value` string of each `AgentType` member. -/
def AgentType.value : AgentType → String
  | .finance_qa => "finance_qa"
  | .portfolio_analysis => "portfolio_analysis"
  | .market_analysis => "market_analysis"
  | .goal_planning => "goal_planning"
  | .tax_education => "tax_education"
  | .news_synthesizer => "news_synthesizer"

/-- The `context` dict handed to `execute_agent` (the keys it reads). -/
structure AgentContext where
  tickers : List String
  amounts : List ℚ
  timeframe : Option String
deriving DecidableEq, Repr

/-- One execution-result dict (`execution_time_ms` omitted: wall clock). -/
structure ExecRecord where
  status : String
  output : Option String
  error : Option String
  agent : String
deriving DecidableEq, Repr

/-- Model of `AgentExecutor.execute_agent`: run one agent, catching any exception and
converting it into an error-status record carrying the message. -/
def execute_agent (beh : AgentType → String → AgentContext → Except String String)
    (agent_type : AgentType) (user_input : String) (ctx : AgentContext) :
    ExecRecord :=
  match beh agent_type user_input ctx with
  | .ok out =>
    { status := "success", output := some out, error := none,
      agent := agent_type.value }
  | .error e =>
    { status := "error", output := none,
      error := some ("Agent " ++ agent_type.value ++ " failed: " ++ e),
      agent := agent_type.value }

/-- Model of `AgentExecutor.execute_agents_parallel`: `asyncio.gather` over
`execute_agent` tasks, zipped back into a dict keyed by `agent.value`
(modelled as an association list; the dict's keys are unique whenever the
requested agent kinds are distinct). -/
def execute_agents_parallel
    (beh : AgentType → String → AgentContext → Except String String)
    (agents : List AgentType) (user_input : String) (ctx : AgentContext) :
    List (String × ExecRecord) :=
  agents.map (fun a => (a.value, execute_agent beh a user_input ctx))

lemma AgentType.value_injective : Function.Injective AgentType.value := by
  intro a b h
  cases a <;> cases b <;> simp_all [AgentType.value]

lemma lookup_map_value (agents : List AgentType) (f : AgentType → ExecRecord)
    (a : AgentType) (ha : a ∈ agents) (hnd : agents.Nodup) :
    (agents.map (fun x => (x.value, f x))).lookup a.value = some (f a) := by
  induction agents with
  | nil => exact absurd ha (List.not_mem_nil a)
  | cons x xs ih =>
    rcases List.mem_cons.mp ha with h | h
    · subst h
      simp [List.lookup]
    · have hne : ¬ (a.value == x.value) = true := by
        simp only [beq_iff_eq]
        intro hv
        have := AgentType.value_injective hv
        subst this
        exact (List.nodup_cons.mp hnd).1 h
      have hv : (a.value == x.value) = false := by
        simpa using hne
      simp only [List.map_cons, List.lookup, hv]
      exact ih h (List.nodup_cons.mp hnd).2

/-- C2: in parallel execution over distinct agent kinds where exactly one
agent raises, the result map has exactly one record per requested kind; the
raiser's record is `status="error"` carrying the exception message, every
other record is `status="success"` with that agent's own output, and (the
model being a total function) no exception escapes to the caller. -/
theorem executor_parallel_isolation (agents : List AgentType) (a₀ : AgentType)
    (beh : AgentType → String → AgentContext → Except String String)
    (input : String) (ctx : AgentContext) (e : String)
    (hnd : agents.Nodup) (hlen : 2 ≤ agents.length) (hmem : a₀ ∈ agents)
    (hfail : beh a₀ input ctx = .error e)
    (hok : ∀ a ∈ agents, a ≠ a₀ → ∃ o, beh a input ctx = .ok o) :
    (execute_agents_parallel beh agents input ctx).length = agents.length ∧
    ((execute_agents_parallel beh agents input ctx).lookup a₀.value
      = some { status := "error", output := none,
               error := some ("Agent " ++ a₀.value ++ " failed: " ++ e),
               agent := a₀.value }) ∧
    (∀ a ∈ agents, a ≠ a₀ → ∀ o, beh a input ctx = .ok o →
      (execute_agents_parallel beh agents input ctx).lookup a.value
        = some { status := "success", output := some o, error := none,
                 agent := a.value }) := by
  refine ⟨by simp [execute_agents_parallel], ?_, ?_⟩
  · rw [execute_agents_parallel,
      lookup_map_value agents (fun x => execute_agent beh x input ctx) a₀ hmem hnd]
    rw [execute_agent, hfail]
  · intro a ha hne o ho
    rw [execute_agents_parallel,
      lookup_map_value agents (fun x => execute_agent beh x input ctx) a ha hnd]
    rw [execute_agent, ho]

/-- Concrete two-agent behaviour for the C2 witness: `finance_qa` raises,
`market_analysis` succeeds. -/
def exBeh : AgentType → String → AgentContext → Except String String :=
  fun a _ _ =>
    match a with
    | .finance_qa => .error "boom"
    | _ => .ok "fine"

theorem executor_parallel_isolation_witness :
    ([AgentType.finance_qa, AgentType.market_analysis] : List AgentType).Nodup ∧
    2 ≤ ([AgentType.finance_qa, AgentType.market_analysis] : List AgentType).length ∧
    AgentType.finance_qa ∈ ([AgentType.finance_qa, AgentType.market_analysis] : List AgentType) ∧
    exBeh AgentType.finance_qa "hi" ⟨[], [], none⟩ = Except.error "boom" ∧
    ((execute_agents_parallel exBeh [AgentType.finance_qa, AgentType.market_analysis]
        "hi" ⟨[], [], none⟩).length
      = ([AgentType.finance_qa, AgentType.market_analysis] : List AgentType).length ∧
     ((execute_agents_parallel exBeh [AgentType.finance_qa, AgentType.market_analysis]
        "hi" ⟨[], [], none⟩).lookup AgentType.finance_qa.value
      = some { status := "error", output := none,
               error := some ("Agent " ++ AgentType.finance_qa.value ++ " failed: " ++ "boom"),
               agent := AgentType.finance_qa.value }) ∧
     (∀ a ∈ ([AgentType.finance_qa, AgentType.market_analysis] : List AgentType),
       a ≠ AgentType.finance_qa → ∀ o, exBeh a "hi" ⟨[], [], none⟩ = .ok o →
       (execute_agents_parallel exBeh [AgentType.finance_qa, AgentType.market_analysis]
          "hi" ⟨[], [], none⟩).lookup a.value
         = some { status := "success", output := some o, error := none,
                  agent := a.value })) :=
  ⟨by decide, by decide, by decide, rfl,
   executor_parallel_isolation [AgentType.finance_qa, AgentType.market_analysis]
     AgentType.finance_qa exBeh "hi" ⟨[], [], none⟩ "boom"
     (by decide) (by decide) (by decide) rfl
     (by
       intro a ha hne
       rcases List.mem_cons.mp ha with h | h
       · exact absurd h hne
       · have hma : a = AgentType.market_analysis := by simpa using h
         subst hma
         exact ⟨"fine", rfl⟩)⟩

/-!
## Input validation and PII detection (`src/core/guardrails.py`)

The PII regexes are compiled into explicit character-list scanners.  Python
`\w`/`\s`/`str.isalnum` are Unicode classes; the model uses the ASCII
subsets (`Char.isAlphanum`, `Char.isWhitespace`), which agree on every
string these claims touch.
-/

def MAX_QUERY_LENGTH : Nat := 5000
def MIN_QUERY_LENGTH : Nat := 3

/-- One character of the allow-list regex
`^[a-zA-Z0-9\s\-\$\%\(\)\,\.\?\!]+$`. -/
def isQueryChar (c : Char) : Bool :=
  c.isAlpha || c.isDigit || c.isWhitespace || "-$%(),.?!".toList.contains c

/-- The `dangerous_patterns` list of `validate_query`. -/
def dangerousPatterns : List String := ["DROP", "DELETE", "INSERT", "UPDATE", "--", "/*"]

/-- Model of `InputValidator.validate_query`.  The special-character ratio compares
exact rationals where Python compares floats; for queries of length at most
5000 the float comparison `count/len > 0.3` decides identically to the exact
one (the nearest ratio to 3/10 differs from it by at least `1/(10·5000)`,
far above double rounding error). -/
def validate_query (user_input : String) : Bool × Option String :=
  if MAX_QUERY_LENGTH < user_input.length then
    (false, some "Query too long. Maximum 5000 characters.")
  else if user_input.length < MIN_QUERY_LENGTH then
    (false, some "Query too short. Minimum 3 characters.")
  else if !(user_input.toList.all isQueryChar) then
    (false, some "Query contains invalid characters.")
  else if dangerousPatterns.any (fun p => containsSubstr (pyUpper user_input) p) then
    (false, some "Query contains suspicious patterns.")
  else if (0.3 : ℚ) <
      ((user_input.toList.filter (fun c => !c.isAlphanum && c != ' ')).length : ℚ)
        / (user_input.length : ℚ) then
    (false, some "Query has too many special characters.")
  else
    (true, none)

/-- Python regex `\w` (word character), ASCII fragment. -/
def isWordChar (c : Char) : Bool := c.isAlphanum || c == '_'

/-- Consume exactly `n` digits, returning the remainder. -/
def takeDigits : Nat → List Char → Option (List Char)
  | 0, l => some l
  | _ + 1, [] => none
  | n + 1, c :: cs => if c.isDigit then takeDigits n cs else none

/-- A `\b` immediately after the consumed digits: end of string or a
non-word character next. -/
def wordBoundaryEnd : List Char → Bool
  | [] => true
  | c :: _ => !(isWordChar c)

/-- The two continuations of an optional one-character separator class:
with the separator consumed (when present) and without. -/
def optSepBy (sep : Char → Bool) : List Char → List (List Char)
  | [] => [[]]
  | c :: cs => if sep c then [cs, c :: cs] else [c :: cs]

/-- Regex `\d{3}-\d{2}-\d{4}` (the `ssn` pattern) anchored at the head. -/
def ssnAt (l : List Char) : Bool :=
  match takeDigits 3 l with
  | some ('-' :: r1) =>
    (match takeDigits 2 r1 with
     | some ('-' :: r2) => (takeDigits 4 r2).isSome
     | _ => false)
  | _ => false

def isEmailLocalChar (c : Char) : Bool :=
  c.isAlphanum || "._%+-".toList.contains c

def isEmailDomainChar (c : Char) : Bool :=
  c.isAlphanum || ".-".toList.contains c

/-- After the `@`: some nonempty `[a-zA-Z0-9.-]` prefix (tracked by `k`),
then a literal `.` followed by at least two ASCII letters. -/
def emailTail : List Char → Nat → Bool
  | [], _ => false
  | c :: cs, k =>
    (c == '.' && decide (1 ≤ k) &&
      (match cs with
       | a :: b :: _ => a.isAlpha && b.isAlpha
       | _ => false))
    || (isEmailDomainChar c && emailTail cs (k + 1))

/-- Regex `[a-zA-Z0-9._%+-]+@[a-zA-Z0-9.-]+\.[a-zA-Z]{2,}` (the `email`
pattern) anchored at the head; since `@` is not a local-part character, the
maximal munch of the local part is exact. -/
def emailAt (l : List Char) : Bool :=
  let run1 := l.takeWhile isEmailLocalChar
  match l.dropWhile isEmailLocalChar with
  | '@' :: rest => !(run1.isEmpty) && emailTail rest 0
  | _ => false

/-- Regex `\d{3}[-.]?\d{3}[-.]?\d{4}\b` (the `phone` pattern, after its
leading `\b`) anchored at the head; both branches of each optional
separator are tried. -/
def phoneAt (l : List Char) : Bool :=
  match takeDigits 3 l with
  | some r1 =>
    (optSepBy (fun c => c == '-' || c == '.') r1).any (fun r =>
      match takeDigits 3 r with
      | some r2 =>
        (optSepBy (fun c => c == '-' || c == '.') r2).any (fun r' =>
          match takeDigits 4 r' with
          | some r3 => wordBoundaryEnd r3
          | none => false)
      | none => false)
  | none => false

/-- Regex `\d{4}[\s-]?\d{4}[\s-]?\d{4}[\s-]?\d{4}\b` (the `credit_card`
pattern, after its leading `\b`) anchored at the head. -/
def creditCardAt (l : List Char) : Bool :=
  match takeDigits 4 l with
  | some r1 =>
    (optSepBy (fun c => c.isWhitespace || c == '-') r1).any (fun r =>
      match takeDigits 4 r with
      | some r2 =>
        (optSepBy (fun c => c.isWhitespace || c == '-') r2).any (fun r' =>
          match takeDigits 4 r' with
          | some r3 =>
            (optSepBy (fun c => c.isWhitespace || c == '-') r3).any (fun r'' =>
              match takeDigits 4 r'' with
              | some r4 => wordBoundaryEnd r4
              | none => false)
          | none => false)
      | none => false)
  | none => false

/-- Regex `\d{10,12}\b` (the `bank_account` pattern, after its leading
`\b`): greedy repetition with an end boundary has a match iff one of the
three lengths has. -/
def bankAccountAt (l : List Char) : Bool :=
  ([10, 11, 12] : List Nat).any (fun n =>
    match takeDigits n l with
    | some r => wordBoundaryEnd r
    | none => false)

/-- Regex `\d{9}\b` (the `ssn_alt` pattern, after its leading `\b`). -/
def ssnAltAt (l : List Char) : Bool :=
  match takeDigits 9 l with
  | some r => wordBoundaryEnd r
  | none => false

/-- Search semantics of `re.search` for a pattern with no leading `\b`: try every suffix. -/
def scanAny (p : List Char → Bool) : List Char → Bool
  | [] => p []
  | c :: cs => p (c :: cs) || scanAny p cs

/-- Search semantics of `re.search` for a pattern starting with `\b` followed by a word
character: try every suffix whose predecessor is not a word character
(`prevWord` tracks the predecessor; string start counts as non-word). -/
def scanBoundary (p : List Char → Bool) : Bool → List Char → Bool
  | prevWord, [] => !prevWord && p []
  | prevWord, c :: cs => (!prevWord && p (c :: cs)) || scanBoundary p (isWordChar c) cs

/-- Model of `PIIDetector.detect`: returns `(has_pii, detected_types)` with the
types in the `PII_PATTERNS` dict order. -/
def piiDetect (text : String) : Bool × List String :=
  let l := text.toList
  let detected :=
    (if scanAny ssnAt l then ["ssn"] else []) ++
    (if scanAny emailAt l then ["email"] else []) ++
    (if scanBoundary phoneAt false l then ["phone"] else []) ++
    (if scanBoundary creditCardAt false l then ["credit_card"] else []) ++
    (if scanBoundary bankAccountAt false l then ["bank_account"] else []) ++
    (if scanBoundary ssnAltAt false l then ["ssn_alt"] else [])
  (!detected.isEmpty, detected)

/-- The `type_names` dict of `PIIDetector.get_warning` (`.get(t, t)`:
`ssn_alt` has no entry and maps to itself). -/
def piiTypeName (t : String) : String :=
  if t = "ssn" then "Social Security Number"
  else if t = "email" then "email address"
  else if t = "phone" then "phone number"
  else if t = "credit_card" then "credit card number"
  else if t = "bank_account" then "bank account number"
  else t

/-- Model of `PIIDetector.get_warning`: built from category names only, never from
the matched text. -/
def get_warning (detected_types : List String) : String :=
  "Please don\x27t include sensitive information like "
    ++ joinSep ", " (detected_types.map piiTypeName)
    ++ ". This information is not needed for financial analysis."

/-!
## Disclaimers (`src/core/guardrails.py`, class `DisclaimerManager`)
-/

def DISCLAIMER_TAX : String :=
  "⚠️ **TAX DISCLAIMER**: This is educational information only, "
    ++ "not tax advice. Consult a qualified tax professional for your specific situation."

def DISCLAIMER_GOAL_PLANNING : String :=
  "⚠️ **PLANNING DISCLAIMER**: These projections are estimates based on assumptions. "
    ++ "Actual results may vary significantly based on market conditions and changes."

def DISCLAIMER_GENERAL : String :=
  "⚠️ **GENERAL DISCLAIMER**: Not financial advice. Consult a qualified financial "
    ++ "advisor before making investment decisions."

/-- Model of `DisclaimerManager.add_disclaimers`.  Python tests
`"tax_question" in str(intent_types)`, a substring test on the list's
`repr`; since the quote/comma separators cannot take part in a match, that
is equivalent to some element containing `"tax_question"`. -/
def add_disclaimers (response : String) (intent_types : List String) : String :=
  if intent_types.contains "tax"
      || intent_types.any (fun s => containsSubstr s "tax_question") then
    response ++ "\n\n" ++ DISCLAIMER_TAX
  else if intent_types.contains "investment" || intent_types.contains "goal_planning" then
    response ++ "\n\n" ++ DISCLAIMER_GOAL_PLANNING
  else
    response ++ "\n\n" ++ DISCLAIMER_GENERAL

/-!
## LangGraph orchestrator (`src/orchestration/langgraph_workflow.py`)

The compiled `StateGraph` has only unconditional edges after the router's
conditional fan-out (`_build_graph`): `input → intent_detection → router →
⟨selected agent node⟩ → synthesis → END`.  A node's early `return state`
ends that node only; the graph still runs every following node.  The
pipeline is therefore modelled as the plain composition of the node
functions in that order.

Oracles: the router's OpenAI call, the selected agent's `execute` and the
synthesis node's `FinanceQAAgent().execute` are external LLM calls, passed
in as `Except String …` parameters (`.error` = the call raised, carrying
the exception message).  `extract_tickers` / `extract_dollar_amounts` /
`extract_timeframe` are regex extractors whose outputs are likewise passed
in; no claim here depends on their values.  Wall-clock timestamps, UUID
session ids and the `metadata` bookkeeping of `_node_synthesis` are
omitted.
-/

/-- A citation dict shaped by `_node_synthesis`. -/
structure Citation where
  title : String
  source_url : String
  category : String
deriving DecidableEq, Repr

/-- The `.value` string of each `Intent` member. -/
def intentValue : Intent → String
  | .education_question => "education_question"
  | .tax_question => "tax_question"
  | .portfolio_analysis => "portfolio_analysis"
  | .market_analysis => "market_analysis"
  | .news_analysis => "news_analysis"
  | .goal_planning => "goal_planning"
  | .investment_plan => "investment_plan"
  | .unknown => "unknown"

/-- The insertion order of the `INTENT_KEYWORDS` dict. -/
def orderedIntents : List Intent :=
  [.education_question, .tax_question, .portfolio_analysis, .market_analysis,
   .news_analysis, .goal_planning, .investment_plan]

/-- Stable descending insertion (Python `sorted(…, reverse=True)` keeps
dict insertion order among equal scores). -/
def insertByScore (p : Intent × Nat) : List (Intent × Nat) → List (Intent × Nat)
  | [] => [p]
  | q :: qs => if q.2 < p.2 then p :: q :: qs else q :: insertByScore p qs

/-- Model of `IntentDetector.detect_intents`: count keyword matches per intent
(`UNKNOWN` is skipped), keep intents with at least one match sorted by
match count descending, fall back to `[UNKNOWN]`. -/
def detect_intents (user_input : String) : List Intent :=
  let scores := (orderedIntents.map (fun i =>
      (i, ((INTENT_KEYWORDS i).filter
        (fun kw => containsSubstr (pyLower user_input) kw)).length))).filter
    (fun p => 0 < p.2)
  let sorted := scores.foldl (fun acc p => insertByScore p acc) []
  if sorted.isEmpty then [Intent.unknown] else sorted.map Prod.fst

/-- The `LangGraphState` fields the modelled nodes read or write
(`workflow_started_at`, `execution_times`, `metadata`,
`conversation_summary` are wall-clock or bookkeeping and are omitted). -/
structure PipelineState where
  user_input : String
  session_id : String
  conversation_history : List PyMessage
  input_validated : Bool
  guardrail_errors : List String
  pii_detected : Bool
  detected_intents : List String
  primary_intent : String
  confidence_score : ℚ
  selected_agent : String
  selected_agents : List String
  routing_rationale : String
  extracted_tickers : List String
  extracted_amounts : List ℚ
  extracted_timeframe : Option String
  agent_executions : List ExecRecord
  execution_errors : List String
  final_response : String
  citations : List Citation
  confidence : ℚ
deriving Repr

/-- The `initial_state` dict of `LangGraphOrchestrator.execute` (the model
always receives a session id; `execute` would otherwise mint a UUID). -/
def initialState (user_input session_id : String)
    (history : List PyMessage) : PipelineState :=
  { user_input := user_input
    session_id := session_id
    conversation_history := history
    input_validated := false
    guardrail_errors := []
    pii_detected := false
    detected_intents := []
    primary_intent := "unknown"
    confidence_score := 0
    selected_agent := ""
    selected_agents := []
    routing_rationale := ""
    extracted_tickers := []
    extracted_amounts := []
    extracted_timeframe := none
    agent_executions := []
    execution_errors := []
    final_response := ""
    citations := []
    confidence := 0 }

/-- Python `repr` of a list of plain strings, as interpolated by
`f"PII detected: {pii_types}"`. -/
def pyStrListRepr (l : List String) : String :=
  "[" ++ joinSep ", " (l.map (fun s => "\x27" ++ s ++ "\x27")) ++ "]"

/-- Model of `_node_input`.  The initialize-empty-lists-if-needed block only
resets falsy fields and is a no-op on the state `execute` builds; the
conversation-summary block raises `AttributeError` on the summary's
nonexistent `conversation_intent` attribute whenever a summary is produced,
and the surrounding `except` swallows it, so it never changes the state.
Both guardrail branches set the canned response and confidence 0 and then
`return state` — which ends the node but not the graph. -/
def node_input (s0 : PipelineState) : PipelineState :=
  let s := { s0 with guardrail_errors := [], input_validated := false,
                     pii_detected := false }
  if (validate_query s.user_input).1 = false then
    { s with
      execution_errors := s.execution_errors ++
        ["Input validation failed: " ++ (validate_query s.user_input).2.getD "None"]
      final_response :=
        "Your question doesn\x27t meet our safety requirements. Please try again."
      confidence := 0 }
  else
    let s1 := { s with input_validated := true }
    if (piiDetect s1.user_input).1 = true then
      { s1 with
        pii_detected := true
        execution_errors := s1.execution_errors ++
          ["PII detected: " ++ pyStrListRepr (piiDetect s1.user_input).2]
        final_response := get_warning (piiDetect s1.user_input).2
        confidence := 0 }
    else
      { s1 with conversation_history :=
          s1.conversation_history ++ [⟨"user", s1.user_input⟩] }

/-- Model of `_node_intent_detection`.  The three extractor results are parameters
(regex scans over the same input); `extracted_amounts`/`extracted_timeframe`
are only written when truthy. -/
def node_intent_detection (tickers : List String) (amounts : List ℚ)
    (timeframe : Option String) (s : PipelineState) : PipelineState :=
  let detected := (detect_intents s.user_input).map intentValue
  { s with
    detected_intents := detected
    primary_intent := detected.headD "unknown"
    extracted_tickers := tickers
    extracted_amounts := if amounts.isEmpty then s.extracted_amounts else amounts
    extracted_timeframe := if timeframe.isSome then timeframe else s.extracted_timeframe
    confidence_score := min 0.99 (0.7
      + (if !tickers.isEmpty then (0.1 : ℚ) else 0)
      + (if !amounts.isEmpty then (0.05 : ℚ) else 0)
      + (if 1 < detected.length then (0.05 : ℚ) else 0)) }

/-- The `valid_agents` list of `_node_router` / `_route_to_agent`. -/
def validAgents : List String := ["finance_qa", "portfolio", "market", "goal", "tax", "news"]

/-- Python `s.strip()`. -/
def pyStrip (s : String) : String :=
  (((s.toList.dropWhile Char.isWhitespace).reverse.dropWhile
      Char.isWhitespace).reverse).asString

/-- Model of `_node_router`.  `llm` is the OpenAI chat call: `.ok reply` is the
model's text, `.error e` means the call raised with message `e`.  When the
input guardrails failed, the router skips the call and falls back without
touching `selected_agents`. -/
def node_router (llm : Except String String) (s : PipelineState) : PipelineState :=
  if s.input_validated = false then
    { s with
      selected_agent := "finance_qa"
      routing_rationale := "Guardrail blocked input, using fallback agent" }
  else
    match llm with
    | .ok reply =>
      let selected0 := pyLower (pyStrip reply)
      let selected := if selected0 ∈ validAgents then selected0 else "finance_qa"
      { s with
        selected_agent := selected
        selected_agents := [selected]
        routing_rationale :=
          "LLM router selected: " ++ selected ++ " | Intent: " ++ s.primary_intent }
    | .error e =>
      { s with
        selected_agent := "finance_qa"
        selected_agents := ["finance_qa"]
        routing_rationale := "Routing error, using fallback: " ++ e
        execution_errors := s.execution_errors ++ ["Router error: " ++ e] }

/-- Model of `_route_to_agent`: the conditional-edge function. -/
def route_to_agent (selected_agent : String) : String :=
  if selected_agent ∈ validAgents then selected_agent else "finance_qa"

/-- The conditional-edge table of `_build_graph`, mapping the routed name
to the agent node's `AgentType` (`route_to_agent` guarantees a valid name;
the default arm is unreachable). -/
def agentTypeOfName (name : String) : AgentType :=
  if name = "portfolio" then .portfolio_analysis
  else if name = "market" then .market_analysis
  else if name = "goal" then .goal_planning
  else if name = "tax" then .tax_education
  else if name = "news" then .news_synthesizer
  else .finance_qa

/-- Model of `_execute_single_agent` (the body shared by the six agent nodes): run
the agent through the executor — which already converts exceptions to
error records — and append the execution record; on error also append to
`execution_errors`.  The context dict passed is
`{"tickers": …, "conversation_history": …}`; `execute_agent` reads only
`tickers`/`amounts`/`timeframe`, the missing keys defaulting falsy. -/
def node_agent (beh : AgentType → String → AgentContext → Except String String)
    (agent_name : String) (agent_type : AgentType) (s : PipelineState) :
    PipelineState :=
  let res := execute_agent beh agent_type s.user_input ⟨s.extracted_tickers, [], none⟩
  let s1 := { s with agent_executions := s.agent_executions ++
      [{ status := res.status, output := res.output, error := res.error,
         agent := agent_name }] }
  if res.status = "error" then
    { s1 with execution_errors := s1.execution_errors ++
        [agent_name ++ ": " ++ res.error.getD "Unknown error"] }
  else s1

/-- Model of `_node_synthesis`.  `synth` is the fresh `FinanceQAAgent().execute`
call on the raw user input: `.ok (answer_text, citations)` or `.error e`
when it raised.  On success the response is re-checked for PII (redaction
notice with confidence 0 on a hit), else disclaimed and stored with
confidence 0.85; the `metadata` bookkeeping is omitted. -/
def node_synthesis (synth : Except String (String × List Citation))
    (s : PipelineState) : PipelineState :=
  match synth with
  | .error e =>
    { s with
      final_response := "Error generating response: " ++ e
      confidence := 0 }
  | .ok out =>
    if (piiDetect out.1).1 = true then
      { s with
        final_response :=
          "Generated response contained sensitive data and was redacted for privacy."
        confidence := 0 }
    else
      { s with
        final_response := add_disclaimers out.1 s.detected_intents
        citations := out.2
        confidence := 0.85 }

/-- The externally visible result dict of `LangGraphOrchestrator.execute`
(timing fields omitted). -/
structure OrchestratorResult where
  response : String
  citations : List Citation
  confidence : ℚ
  intent : String
  agents_used : List String
  session_id : String
deriving Repr

/-- Model of `LangGraphOrchestrator.execute`: build the initial state and run the
graph `input → intent_detection → router → agent → synthesis`. -/
def orchestrator_execute (llm : Except String String)
    (beh : AgentType → String → AgentContext → Except String String)
    (synth : Except String (String × List Citation))
    (tickers : List String) (amounts : List ℚ) (timeframe : Option String)
    (user_input session_id : String) (history : List PyMessage) :
    OrchestratorResult :=
  let s1 := node_input (initialState user_input session_id history)
  let s2 := node_intent_detection tickers amounts timeframe s1
  let s3 := node_router llm s2
  let agent_name := route_to_agent s3.selected_agent
  let s4 := node_agent beh agent_name (agentTypeOfName agent_name) s3
  let s5 := node_synthesis synth s4
  { response := s5.final_response
    citations := s5.citations
    confidence := s5.confidence
    intent := s5.primary_intent
    agents_used := s5.selected_agents
    session_id := s5.session_id }

/-- C3: the router's selection is always exactly one member of the valid
set — a reply outside the set (after strip+lower) falls back to
`finance_qa`, a raising call falls back to `finance_qa` — and the name the
conditional edge routes to is never empty. -/
theorem router_selection_always_valid (llm : Except String String)
    (s : PipelineState) :
    (node_router llm s).selected_agent ∈ validAgents ∧
    route_to_agent (node_router llm s).selected_agent
      = (node_router llm s).selected_agent ∧
    route_to_agent (node_router llm s).selected_agent ≠ "" ∧
    (∀ e, llm = Except.error e → (node_router llm s).selected_agent = "finance_qa") ∧
    (∀ r, llm = Except.ok r → pyLower (pyStrip r) ∉ validAgents →
      (node_router llm s).selected_agent = "finance_qa") := by
  have hmem : (node_router llm s).selected_agent ∈ validAgents := by
    by_cases hv : s.input_validated = false
    · simp [node_router, hv, validAgents]
    · cases llm with
      | error e => simp [node_router, hv, validAgents]
      | ok r =>
        by_cases hr : pyLower (pyStrip r) ∈ validAgents
        · simp [node_router, hv, hr]
        · simp [node_router, hv, hr]
          decide
  have hroute : route_to_agent (node_router llm s).selected_agent
      = (node_router llm s).selected_agent := by
    rw [route_to_agent, if_pos hmem]
  refine ⟨hmem, hroute, ?_, ?_, ?_⟩
  · rw [hroute]
    intro h
    rw [h] at hmem
    simp [validAgents] at hmem
  · intro e he
    subst he
    by_cases hv : s.input_validated = false
    · simp [node_router, hv]
    · simp [node_router, hv]
  · intro r hr hout
    subst hr
    by_cases hv : s.input_validated = false
    · simp [node_router, hv]
    · simp [node_router, hv, hout]

theorem router_selection_always_valid_witness :
    (node_router (Except.ok "  MARKET ")
        (initialState "compare AAPL and MSFT" "s1" [])).selected_agent ∈ validAgents ∧
    route_to_agent (node_router (Except.ok "  MARKET ")
        (initialState "compare AAPL and MSFT" "s1" [])).selected_agent
      = (node_router (Except.ok "  MARKET ")
          (initialState "compare AAPL and MSFT" "s1" [])).selected_agent ∧
    route_to_agent (node_router (Except.ok "  MARKET ")
        (initialState "compare AAPL and MSFT" "s1" [])).selected_agent ≠ "" ∧
    (∀ e, (Except.ok "  MARKET " : Except String String) = Except.error e →
      (node_router (Except.ok "  MARKET ")
          (initialState "compare AAPL and MSFT" "s1" [])).selected_agent = "finance_qa") ∧
    (∀ r, (Except.ok "  MARKET " : Except String String) = Except.ok r →
      pyLower (pyStrip r) ∉ validAgents →
      (node_router (Except.ok "  MARKET ")
          (initialState "compare AAPL and MSFT" "s1" [])).selected_agent = "finance_qa") :=
  router_selection_always_valid (Except.ok "  MARKET ")
    (initialState "compare AAPL and MSFT" "s1" [])

/-!
## C1: the PII guardrail is not terminal

`_node_input` detects the SSN, stores the category-only warning as
`final_response` with confidence 0 and returns — but the graph has no
conditional edge there, so intent detection, routing, the selected agent
and synthesis all still run, and `_node_synthesis` unconditionally
overwrites `final_response` and sets confidence 0.85 whenever its own
generation succeeds and passes the output PII check.
-/

def c1Input : String := "My SSN is 123-45-6789, help me invest"

/-- A stub agent behaviour: every agent call succeeds. -/
def c1Beh : AgentType → String → AgentContext → Except String String :=
  fun _ _ _ => Except.ok "stub answer"

/-- A synthesis-call outcome: the generated text is PII-free. -/
def c1Synth : Except String (String × List Citation) := Except.ok ("Hello", [])

lemma c1_validate_query : validate_query c1Input = (true, none) := by
  rw [validate_query]
  rw [if_neg (by decide), if_neg (by decide), if_neg (by decide), if_neg (by decide)]
  have hc : (c1Input.toList.filter (fun c => !c.isAlphanum && c != ' ')).length = 3 := by
    decide
  have hl : c1Input.length = 37 := by decide
  rw [hc, hl]
  rw [if_neg (by norm_num)]

lemma c1_pii : piiDetect c1Input = (true, ["ssn"]) := by decide

lemma c1_node_input_props :
    (node_input (initialState c1Input "sess" [])).final_response = get_warning ["ssn"] ∧
    (node_input (initialState c1Input "sess" [])).confidence = 0 ∧
    (node_input (initialState c1Input "sess" [])).input_validated = true ∧
    (node_input (initialState c1Input "sess" [])).user_input = c1Input ∧
    (node_input (initialState c1Input "sess" [])).detected_intents = [] := by
  have h1 := c1_validate_query
  have h2 := c1_pii
  refine ⟨?_, ?_, ?_, ?_, ?_⟩ <;> simp [node_input, initialState, h1, h2]

lemma node_intent_fields (t : List String) (a : List ℚ) (tf : Option String)
    (s : PipelineState) :
    (node_intent_detection t a tf s).detected_intents
      = (detect_intents s.user_input).map intentValue ∧
    (node_intent_detection t a tf s).user_input = s.user_input ∧
    (node_intent_detection t a tf s).input_validated = s.input_validated :=
  ⟨rfl, rfl, rfl⟩

lemma node_router_fields (llm : Except String String) (s : PipelineState) :
    (node_router llm s).detected_intents = s.detected_intents ∧
    (node_router llm s).user_input = s.user_input ∧
    (node_router llm s).extracted_tickers = s.extracted_tickers := by
  by_cases hv : s.input_validated = false
  · cases llm <;> simp [node_router, hv]
  · cases llm with
    | error e => simp [node_router, hv]
    | ok r =>
      by_cases hr : pyLower (pyStrip r) ∈ validAgents <;> simp [node_router, hv, hr]

lemma node_agent_fields (beh : AgentType → String → AgentContext → Except String String)
    (n : String) (a : AgentType) (s : PipelineState) :
    (node_agent beh n a s).detected_intents = s.detected_intents ∧
    (node_agent beh n a s).user_input = s.user_input := by
  by_cases hs :
      (execute_agent beh a s.user_input ⟨s.extracted_tickers, [], none⟩).status = "error" <;>
    simp [node_agent, hs]

def c1s1 : PipelineState := node_input (initialState c1Input "sess" [])
def c1s2 : PipelineState := node_intent_detection ["SSN"] [] none c1s1
def c1s3 : PipelineState := node_router (Except.ok "finance_qa") c1s2
def c1AgentName : String := route_to_agent c1s3.selected_agent
def c1s4 : PipelineState := node_agent c1Beh c1AgentName (agentTypeOfName c1AgentName) c1s3

def c1Result : OrchestratorResult :=
  orchestrator_execute (Except.ok "finance_qa") c1Beh c1Synth
    ["SSN"] [] none c1Input "sess" []

lemma c1s4_detected : c1s4.detected_intents = ["unknown"] := by
  have h4 : c1s4.detected_intents = c1s3.detected_intents :=
    (node_agent_fields c1Beh c1AgentName (agentTypeOfName c1AgentName) c1s3).1
  have h3 : c1s3.detected_intents = c1s2.detected_intents :=
    (node_router_fields (Except.ok "finance_qa") c1s2).1
  have h2 : c1s2.detected_intents = (detect_intents c1s1.user_input).map intentValue :=
    (node_intent_fields ["SSN"] [] none c1s1).1
  have h1u : c1s1.user_input = c1Input := c1_node_input_props.2.2.2.1
  rw [h4, h3, h2, h1u]
  decide

/-- C1 (code-bug evidence): on an SSN-bearing input the input node does set
`final_response` to the category-only warning and confidence 0, but the
graph keeps running, and with a successful PII-free synthesis call the
final result has confidence 0.85 and a response that is the fresh
generation plus disclaimer, not the PII warning — contradicting the
claimed terminal zero-confidence rejection. -/
theorem pipeline_pii_guardrail_not_terminal :
    piiDetect c1Input = (true, ["ssn"]) ∧
    (node_input (initialState c1Input "sess" [])).final_response = get_warning ["ssn"] ∧
    (node_input (initialState c1Input "sess" [])).confidence = 0 ∧
    c1Result.confidence = 0.85 ∧
    c1Result.confidence ≠ 0 ∧
    c1Result.response = "Hello" ++ "\n\n" ++ DISCLAIMER_GENERAL ∧
    c1Result.response ≠ get_warning ["ssn"] := by
  have hp : piiDetect "Hello" = (false, []) := by decide
  have hconf : c1Result.confidence = 0.85 := by
    show (node_synthesis c1Synth c1s4).confidence = 0.85
    simp [node_synthesis, c1Synth, hp]
  have hresp : c1Result.response = "Hello" ++ "\n\n" ++ DISCLAIMER_GENERAL := by
    show (node_synthesis c1Synth c1s4).final_response
      = "Hello" ++ "\n\n" ++ DISCLAIMER_GENERAL
    have : (node_synthesis c1Synth c1s4).final_response
        = add_disclaimers "Hello" c1s4.detected_intents := by
      simp [node_synthesis, c1Synth, hp]
    rw [this, c1s4_detected]
    decide
  refine ⟨c1_pii, c1_node_input_props.1, c1_node_input_props.2.1, hconf, ?_, hresp, ?_⟩
  · rw [hconf]
    norm_num
  · rw [hresp]
    decide

end AIFinance
